import Mathlib

/-!
Verification of the video transcription and summary microservice.

The development shallowly embeds the two source files:
  * `lib/processVideo.js` — the pipeline `processVideoFile` (ffmpeg availability
    check, audio extraction, audio read, remote ASR call, remote summarization
    call, temp-file cleanup);
  * `server.js` — the `POST /process` handler (temp video save, pipeline call,
    cleanup, HTTP response).

External effects (subprocess results, HTTP responses, fs failures) are supplied
by an environment record `Env`; the embedded functions return the list of
effectful events they perform together with their outcome, and a small
filesystem model (`runFs`) interprets the event list as creations and
deletions of temp files.
-/

/-! ### JavaScript value model

The remote services answer with untyped JSON-like documents which the code
inspects with truthiness tests and optional chaining.  `JVal` models such
documents; `JArr`/`JObj` are inlined lists so that all functions below are
structurally recursive. -/

mutual

inductive JVal where
  | jnull
  | jbool (b : Bool)
  | jnum (n : Int)
  | jstr (s : String)
  | jarr (xs : JArr)
  | jobj (fs : JObj)

inductive JArr where
  | nil
  | cons (hd : JVal) (tl : JArr)

inductive JObj where
  | nil
  | cons (k : String) (v : JVal) (tl : JObj)

end

/-- JavaScript truthiness of a JSON document (`undefined` is modelled by
`jnull`, like `null`: both are falsy). -/
def JVal.truthy : JVal → Bool
  | .jnull => false
  | .jbool b => b
  | .jnum n => n != 0
  | .jstr s => s ≠ ""
  | .jarr _ => true
  | .jobj _ => true

/-- First binding of a key in an object literal. -/
def JObj.find : JObj → String → Option JVal
  | .nil, _ => none
  | .cons k v tl, key => if k = key then some v else tl.find key

/-- Property access `j.k` (also written `j?.k` in the source); yields
`jnull` (modelling `undefined`) when the property is absent or the value
is not an object. -/
def JVal.get : JVal → String → JVal
  | .jobj fs, k => (fs.find k).getD .jnull
  | _, _ => .jnull

/-- Index access `j[0]`: the head of an array, the first character of a
string, otherwise `undefined` (modelled by `jnull`). -/
def JVal.index0 : JVal → JVal
  | .jarr (.cons x _) => x
  | .jstr s =>
      match s.data with
      | [] => .jnull
      | c :: _ => .jstr (String.mk [c])
  | _ => .jnull

def JVal.isArr : JVal → Bool
  | .jarr _ => true
  | _ => false

def JVal.isStr : JVal → Bool
  | .jstr _ => true
  | _ => false

/-- `Array.isArray(j) && j.length > 0`, and `s.length > 0` for a string;
`.length` of other values is `undefined` and `undefined > 0` is false. -/
def JVal.lenPos : JVal → Bool
  | .jarr (.cons _ _) => true
  | .jstr s => s.length > 0
  | _ => false

mutual

/-- `JSON.stringify` (string escaping idealized: a string is wrapped in
plain double quotes). -/
def JVal.stringify : JVal → String
  | .jnull => "null"
  | .jbool true => "true"
  | .jbool false => "false"
  | .jnum n => toString n
  | .jstr s => "\"" ++ s ++ "\""
  | .jarr xs => "[" ++ JArr.stringifyItems xs ++ "]"
  | .jobj fs => "\x7b" ++ JObj.stringifyItems fs ++ "\x7d"

def JArr.stringifyItems : JArr → String
  | .nil => ""
  | .cons x .nil => JVal.stringify x
  | .cons x tl => JVal.stringify x ++ "," ++ JArr.stringifyItems tl

def JObj.stringifyItems : JObj → String
  | .nil => ""
  | .cons k v .nil => "\"" ++ k ++ "\":" ++ JVal.stringify v
  | .cons k v tl => "\"" ++ k ++ "\":" ++ JVal.stringify v ++ "," ++ JObj.stringifyItems tl

end

/-! ### ASR response normalization (`processVideo.js` lines 95-108)

```js
let asrJson;
try { asrJson = raw ? JSON.parse(raw) : null; } catch (e) { asrJson = raw; }
if (!asrJson) transcription = "";
else if (typeof asrJson === "string") transcription = asrJson;
else if (asrJson.text) transcription = asrJson.text;
else if (asrJson.transcription) transcription = asrJson.transcription;
else if (Array.isArray(asrJson) && asrJson[0]?.text) transcription = asrJson[0].text;
else transcription = JSON.stringify(asrJson);
```

`raw` is the response body; `parsed` is the result of `JSON.parse raw`
(`none` when the parse throws, in which case `asrJson` is the raw string). -/
def normalizeAsr (raw : String) (parsed : Option JVal) : JVal :=
  let asrJson : JVal :=
    if raw = "" then .jnull
    else match parsed with
      | some j => j
      | none => .jstr raw
  if asrJson.truthy = false then .jstr ""
  else match asrJson with
    | .jstr s => .jstr s
    | j =>
      if (JVal.get j "text").truthy then JVal.get j "text"
      else if (JVal.get j "transcription").truthy then JVal.get j "transcription"
      else if j.isArr && (JVal.get (JVal.index0 j) "text").truthy then
        JVal.get (JVal.index0 j) "text"
      else .jstr (JVal.stringify j)

/-! ### Summarization response normalization (`processVideo.js` lines 128-137) -/

/--
```js
if (sumOut?.choices && sumOut.choices.length > 0) {
  const c = sumOut.choices[0];
  if (c.message?.content) summary = c.message.content;
  else if (c.text) summary = c.text;
  else if (c.generated_text) summary = c.generated_text;
  else summary = JSON.stringify(c);
} else if (typeof sumOut === "string") summary = sumOut;
else if (sumOut?.generated_text) summary = sumOut.generated_text;
else summary = JSON.stringify(sumOut);
```
-/
def normalizeSum (sumOut : JVal) : JVal :=
  if (JVal.get sumOut "choices").truthy && (JVal.get sumOut "choices").lenPos then
    let c := JVal.index0 (JVal.get sumOut "choices")
    if (JVal.get (JVal.get c "message") "content").truthy then
      JVal.get (JVal.get c "message") "content"
    else if (JVal.get c "text").truthy then JVal.get c "text"
    else if (JVal.get c "generated_text").truthy then JVal.get c "generated_text"
    else .jstr (JVal.stringify c)
  else match sumOut with
    | .jstr s => .jstr s
    | j =>
      if (JVal.get j "generated_text").truthy then JVal.get j "generated_text"
      else .jstr (JVal.stringify j)

/-! ### Environment and events

`Env` fixes, for one request, the behavior of every external collaborator:
the `Date.now()` clock value, the ffmpeg subprocess, the local filesystem
reads, the remote ASR HTTP call, and the remote summarization call. -/

structure Env where
  /-- `Date.now()` observed when `processVideoFile` allocates `audioPath`. -/
  now : Nat
  /-- static binary path provided by the `ffmpeg-static` import (`null` when absent). -/
  ffmpegStaticBin : Option String
  /-- the availability probe `exec("<ff> -version", 5000)` succeeds. -/
  checkOk : Bool
  /-- the extraction subprocess exits zero. -/
  extractOk : Bool
  /-- `err?.stderr || err?.message || String(err)` of a failed extraction. -/
  extractStderr : String
  /-- a failed extraction subprocess leaves a stray (truncated) output file behind. -/
  strayAudioOnFail : Bool
  /-- `fs.promises.readFile(audioPath)` succeeds. -/
  readOk : Bool
  /-- message of the audio read failure. -/
  readErr : String
  /-- `fetch(asrUrl, ...)` resolves (transport level). -/
  fetchOk : Bool
  /-- message of the transport failure. -/
  fetchErrMsg : String
  /-- `res.ok` of the ASR HTTP response. -/
  resOk : Bool
  /-- `res.status` of the ASR HTTP response. -/
  resStatus : Nat
  /-- `res.statusText` of the ASR HTTP response. -/
  resStatusText : String
  /-- `await res.text()` (empty when that read itself failed). -/
  raw : String
  /-- result of `JSON.parse(raw)`; `none` when the parse throws. -/
  parsed : Option JVal
  /-- message of the TypeError thrown by `transcription.slice(0, 400)` when the
  normalized transcription is a truthy non-string (runtime specific). -/
  asrSliceErrMsg : String
  /-- `hf.chatCompletion(...)` resolves. -/
  sumOk : Bool
  /-- the resolved chat completion response document. -/
  sumOut : JVal
  /-- `err?.message || err` of the failed summarization call. -/
  sumErrMsg : String
  /-- message of the TypeError thrown by `(summary || "").slice(0, 400)` when the
  normalized summary is a truthy non-string (runtime specific). -/
  sumSliceErrMsg : String

/-- One effectful step performed by the embedded code. -/
inductive Event where
  /-- `exec` of the availability probe, with its timeout in milliseconds. -/
  | execCheck (cmd : String) (timeoutMs : Nat)
  /-- `exec` of the extraction command; `outPath` is the file the subprocess writes. -/
  | execFfmpeg (cmd : String) (outPath : String)
  /-- `fs.promises.readFile`. -/
  | readFile (p : String)
  /-- `fs.promises.unlink(p)` with an ignore-all catch, i.e. best-effort deletion. -/
  | unlink (p : String)
  /-- `fetch` of the remote ASR endpoint. -/
  | asrCall (url : String)
  /-- `hf.chatCompletion` against the remote summarization model. -/
  | chatCall (model : String)
  /-- `fs.writeFile` performed by the HTTP handler. -/
  | writeFile (p : String)
deriving DecidableEq

def Event.isChatCall : Event → Bool
  | .chatCall _ => true
  | _ => false

def Event.isRemoteCall : Event → Bool
  | .asrCall _ => true
  | .chatCall _ => true
  | _ => false

/-- Does the event create, modify or delete the file at `p`? -/
def Event.touchesPath (p : String) : Event → Bool
  | .unlink q => q == p
  | .writeFile q => q == p
  | .execFfmpeg _ out => out == p
  | _ => false

/-- Does the event touch the filesystem at all? -/
def Event.touchesFs : Event → Bool
  | .unlink _ => true
  | .writeFile _ => true
  | .execFfmpeg _ _ => true
  | .readFile _ => true
  | _ => false

/-! ### Paths and commands -/

/-- `os.tmpdir()`, modelled as the usual fixed directory. -/
def tmpDir : String := "/tmp"

/-- `path.join` for one separator-free component. -/
def pathJoin (dir name : String) : String := dir ++ "/" ++ name

/-- `path.join(tmpDir, audio_<Date.now()>.wav)` (`processVideo.js` line 31). -/
def audioPath (now : Nat) : String :=
  pathJoin tmpDir ("audio_" ++ Nat.repr now ++ ".wav")

/-- `path.join(tmpDir, upload_<Date.now()>.mp4)` (`server.js` lines 83-84). -/
def videoPathOf (now : Nat) : String :=
  pathJoin tmpDir ("upload_" ++ Nat.repr now ++ ".mp4")

/-- JavaScript `a || b` on a possibly-null string (empty strings are falsy). -/
def strOr (a : Option String) (b : String) : String :=
  match a with
  | some s => if s = "" then b else s
  | none => b

/-- `let ff = ffmpegBin || ffmpegStatic || "ffmpeg"; if (!ff) ff = "ffmpeg";`
(`processVideo.js` lines 34-35). -/
def resolveFf (ffmpegBin ffmpegStaticBin : Option String) : String :=
  let ff := strOr ffmpegBin (strOr ffmpegStaticBin "ffmpeg")
  if ff = "" then "ffmpeg" else ff

/-- The availability probe command `"<ff>" -version` (`processVideo.js` line 40). -/
def checkCmd (ff : String) : String := "\"" ++ ff ++ "\" -version"

/-- The extraction command
`"<ff>" -y -i "<videoPath>" -vn -acodec pcm_s16le -ar 16000 -ac 1 "<audioPath>"`
(`processVideo.js` line 47), written here in chunks convenient for the proofs. -/
def ffmpegCmd (ff videoPath audioP : String) : String :=
  "\"" ++ ff ++ "\"" ++ " -y " ++ "-i \"" ++ videoPath ++ "\"" ++
    " -vn -acodec pcm_s16le -ar 16000 -ac 1 " ++ "\"" ++ audioP ++ "\""

/-- The hard-coded remote ASR endpoint (`processVideo.js` lines 69-70). -/
def asrUrl : String :=
  "https://api-inference.huggingface.co/models/openai/whisper-large-v3"

/-- The hard-coded summarization model (`processVideo.js` line 124). -/
def chatModel : String := "NousResearch/Hermes-3-Llama-3.1-8B"

/-- `HF ASR failed: <status> <statusText> - <raw.slice(0, 1000)>`
(`processVideo.js` line 90-92). -/
def hfAsrErrMsg (env : Env) : String :=
  "HF ASR failed: " ++ Nat.repr env.resStatus ++ " " ++ env.resStatusText ++
    " - " ++ env.raw.take 1000

/-- The cause carried by the fatal `ASR failed: <cause>` error: the transport
error message when `fetch` rejected, else the `HF ASR failed: ...` text built
from the non-ok response. -/
def asrFailCause (env : Env) : String :=
  if env.fetchOk then hfAsrErrMsg env else env.fetchErrMsg

/-! ### The pipeline and the handler -/

structure PipelineResult where
  transcription : String
  summary : String
deriving DecidableEq

/-- The `summary` variable after the summarization stage
(`processVideo.js` lines 118-143): the normalized response when the call
succeeded and normalized to a string; the diagnostic
`Error generating summary: <cause>` when the call failed, or when the
truthy non-string normalized value made `(summary || "").slice(0, 400)`
throw inside the same `try`. -/
def summaryOf (env : Env) : String :=
  if env.sumOk = false then "Error generating summary: " ++ env.sumErrMsg
  else
    match normalizeSum env.sumOut with
    | .jstr s => s
    | _ => "Error generating summary: " ++ env.sumSliceErrMsg

/-- Shallow embedding of `processVideoFile(videoPath, ffmpegBin)`
(`processVideo.js` lines 29-149).  Returns the list of effectful events the
call performs, in order, and its outcome (`Except.error` models a thrown
`Error` by its message). -/
def processVideoFile (videoPath : String) (ffmpegBin : Option String) (env : Env) :
    List Event × Except String PipelineResult :=
  let audioP := audioPath env.now
  let ff := resolveFf ffmpegBin env.ffmpegStaticBin
  -- lines 39-44: availability probe; on failure throw before any artifact work
  if env.checkOk = false then
    ([.execCheck (checkCmd ff) 5000],
     .error ("ffmpeg not found or not executable: " ++ ff))
  -- lines 46-55: extraction; the catch block rethrows WITHOUT unlinking audioPath
  else if env.extractOk = false then
    ([.execCheck (checkCmd ff) 5000, .execFfmpeg (ffmpegCmd ff videoPath audioP) audioP],
     .error ("ffmpeg failed: " ++ env.extractStderr))
  -- lines 57-64: read audio; on failure unlink audioPath then throw
  else if env.readOk = false then
    ([.execCheck (checkCmd ff) 5000, .execFfmpeg (ffmpegCmd ff videoPath audioP) audioP,
      .readFile audioP, .unlink audioP],
     .error ("Failed to read audio: " ++ env.readErr))
  -- lines 66-115: ASR stage; any throw inside the try unlinks audioPath and
  -- rethrows "ASR failed: <cause>"
  else if env.fetchOk = false then
    ([.execCheck (checkCmd ff) 5000, .execFfmpeg (ffmpegCmd ff videoPath audioP) audioP,
      .readFile audioP, .asrCall asrUrl, .unlink audioP],
     .error ("ASR failed: " ++ env.fetchErrMsg))
  else if env.resOk = false then
    ([.execCheck (checkCmd ff) 5000, .execFfmpeg (ffmpegCmd ff videoPath audioP) audioP,
      .readFile audioP, .asrCall asrUrl, .unlink audioP],
     .error ("ASR failed: " ++ hfAsrErrMsg env))
  else
    match normalizeAsr env.raw env.parsed with
    -- lines 117-148: summarization (its failures are swallowed), final unlink, return
    | .jstr t =>
        ([.execCheck (checkCmd ff) 5000, .execFfmpeg (ffmpegCmd ff videoPath audioP) audioP,
          .readFile audioP, .asrCall asrUrl, .chatCall chatModel, .unlink audioP],
         .ok ⟨t, summaryOf env⟩)
    -- line 110: console.log("...", transcription.slice(0, 400)) throws a TypeError
    -- on a truthy non-string transcription; the ASR catch unlinks and rethrows
    | _ =>
        ([.execCheck (checkCmd ff) 5000, .execFfmpeg (ffmpegCmd ff videoPath audioP) audioP,
          .readFile audioP, .asrCall asrUrl, .unlink audioP],
         .error ("ASR failed: " ++ env.asrSliceErrMsg))

/-- The multipart upload handed to the handler: raw bytes plus the
caller-supplied original filename. -/
structure Upload where
  buffer : List Nat
  originalname : String

/-- The HTTP response of `POST /process`. -/
inductive HResponse where
  /-- `400 JSON error "video file required"`. -/
  | badRequest
  /-- `200` with the transcription and summary. -/
  | ok (r : PipelineResult)
  /-- `500 JSON error String(err)`. -/
  | serverError (msg : String)
deriving DecidableEq

/-- Shallow embedding of the `POST /process` handler (`server.js` lines 78-101).
`hnow` is the `Date.now()` the handler observes when naming the temp video. -/
def handler (file : Option Upload) (hnow : Nat) (env : Env) : List Event × HResponse :=
  match file with
  | none => ([], .badRequest)
  | some _ =>
      let vp := videoPathOf hnow
      match processVideoFile vp none env with
      | (tr, .ok r) => (.writeFile vp :: (tr ++ [.unlink vp]), .ok r)
      | (tr, .error e) =>
          (.writeFile vp :: (tr ++ [.unlink vp]), .serverError ("Error: " ++ e))

/-! ### Filesystem interpretation of an event list -/

/-- Interpretation of one event on the set of existing temp files: writes
create, `unlink` deletes, the extraction subprocess creates its output when it
succeeds and also, when `env.strayAudioOnFail` holds, when it fails part-way. -/
def applyEvent (env : Env) (fs : List String) : Event → List String
  | .writeFile p => p :: fs
  | .execFfmpeg _ out => if env.extractOk || env.strayAudioOnFail then out :: fs else fs
  | .unlink p => fs.filter (fun q => q ≠ p)
  | _ => fs

/-- Files existing after running the event list from the files `init`. -/
def runFs (env : Env) (init : List String) (tr : List Event) : List String :=
  tr.foldl (applyEvent env) init

/-! ### Auxiliary definitions used by the theorems -/

/-- The body of a transport-ok ASR response lacks every transcript field the
code probes for: `.text`, `.transcription` and `[0]?.text`. -/
def lacksTranscriptField (j : JVal) : Bool :=
  !(JVal.get j "text").truthy && !(JVal.get j "transcription").truthy &&
    !(j.isArr && (JVal.get (JVal.index0 j) "text").truthy)

/-- The decimal digit list rendered by `Nat.repr`: most significant first,
with a single `0` for zero. -/
def digitsRepr (n : Nat) : List Nat :=
  if n = 0 then [0] else (Nat.digits 10 n).reverse

/-- Left inverse of `Nat.digitChar` on digits below ten. -/
def charToDigit (c : Char) : Nat :=
  if c = '0' then 0 else if c = '1' then 1 else if c = '2' then 2 else if c = '3' then 3
  else if c = '4' then 4 else if c = '5' then 5 else if c = '6' then 6 else if c = '7' then 7
  else if c = '8' then 8 else 9

/-- A request in the concurrency model: its identity and the `Date.now()`
millisecond value it observes.  Two concurrent requests are distinct requests
that may observe the same millisecond. -/
structure RequestCtx where
  reqId : Nat
  arrivalMs : Nat
deriving DecidableEq

def reqA : RequestCtx := ⟨1, 1000⟩

def reqB : RequestCtx := ⟨2, 1000⟩

/-- A summarization response with one choice carrying `message.content`. -/
def sumOutOk : JVal :=
  JVal.jobj (JObj.cons "choices"
    (JVal.jarr (JArr.cons
      (JVal.jobj (JObj.cons "message"
        (JVal.jobj (JObj.cons "content" (JVal.jstr "a short summary") JObj.nil)) JObj.nil))
      JArr.nil))
    JObj.nil)

/-- An all-healthy environment, the base the per-claim environments tweak. -/
def envOk : Env := {
  now := 5
  ffmpegStaticBin := some "/app/node_modules/ffmpeg-static/ffmpeg"
  checkOk := true, extractOk := true, extractStderr := ""
  strayAudioOnFail := false
  readOk := true, readErr := ""
  fetchOk := true, fetchErrMsg := ""
  resOk := true, resStatus := 200, resStatusText := "OK"
  raw := "hello world", parsed := none
  asrSliceErrMsg := "transcription.slice is not a function"
  sumOk := true, sumOut := sumOutOk, sumErrMsg := ""
  sumSliceErrMsg := "summary.slice is not a function" }

/-- Summarization call fails. -/
def envC1 : Env := { envOk with sumOk := false, sumErrMsg := "boom" }

/-- Extraction fails, subprocess leaves a truncated output file behind. -/
def envC2 : Env :=
  { envOk with extractOk := false, strayAudioOnFail := true, extractStderr := "codec error" }

/-- Transport-ok ASR response whose body is the empty JSON object. -/
def envC3 : Env :=
  { envOk with raw := "\x7b\x7d", parsed := some (.jobj .nil),
               sumOk := false, sumErrMsg := "down" }

/-- The ASR fetch rejects at the transport level. -/
def envC4 : Env := { envOk with fetchOk := false, fetchErrMsg := "network down" }

/-- Extraction fails leaving a truncated output file (second instance). -/
def envC5 : Env :=
  { envOk with now := 9, extractOk := false, strayAudioOnFail := true,
               extractStderr := "bad input" }

/-- The ffmpeg availability probe fails. -/
def envC6 : Env := { envOk with checkOk := false }

def uploadA : Upload := ⟨[1, 2, 3], "holiday.mov"⟩

def uploadB : Upload := ⟨[4, 5], "speech.mp4"⟩

/-! ### Constructor-level simp lemmas for the JavaScript value model -/

@[simp] theorem JVal.truthy_jnull : JVal.truthy .jnull = false := rfl

@[simp] theorem JVal.truthy_jbool (b : Bool) : (JVal.jbool b).truthy = b := rfl

@[simp] theorem JVal.truthy_jnum (n : Int) : (JVal.jnum n).truthy = (n != 0) := rfl

@[simp] theorem JVal.truthy_jstr (s : String) : (JVal.jstr s).truthy = decide (s ≠ "") := rfl

@[simp] theorem JVal.truthy_jarr (xs : JArr) : (JVal.jarr xs).truthy = true := rfl

@[simp] theorem JVal.truthy_jobj (fs : JObj) : (JVal.jobj fs).truthy = true := rfl

@[simp] theorem JVal.get_jnull (k : String) : JVal.get .jnull k = .jnull := rfl

@[simp] theorem JVal.get_jbool (b : Bool) (k : String) : (JVal.jbool b).get k = .jnull := rfl

@[simp] theorem JVal.get_jnum (n : Int) (k : String) : (JVal.jnum n).get k = .jnull := rfl

@[simp] theorem JVal.get_jstr (s k : String) : (JVal.jstr s).get k = .jnull := rfl

@[simp] theorem JVal.get_jarr (xs : JArr) (k : String) : (JVal.jarr xs).get k = .jnull := rfl

@[simp] theorem JVal.isArr_jnull : JVal.isArr .jnull = false := rfl

@[simp] theorem JVal.isArr_jbool (b : Bool) : (JVal.jbool b).isArr = false := rfl

@[simp] theorem JVal.isArr_jnum (n : Int) : (JVal.jnum n).isArr = false := rfl

@[simp] theorem JVal.isArr_jstr (s : String) : (JVal.jstr s).isArr = false := rfl

@[simp] theorem JVal.isArr_jarr (xs : JArr) : (JVal.jarr xs).isArr = true := rfl

@[simp] theorem JVal.isArr_jobj (fs : JObj) : (JVal.jobj fs).isArr = false := rfl

@[simp] theorem JVal.isStr_jstr (s : String) : (JVal.jstr s).isStr = true := rfl

@[simp] theorem JVal.isStr_jnull : JVal.isStr .jnull = false := rfl

@[simp] theorem JVal.isStr_jbool (b : Bool) : (JVal.jbool b).isStr = false := rfl

@[simp] theorem JVal.isStr_jnum (n : Int) : (JVal.jnum n).isStr = false := rfl

@[simp] theorem JVal.isStr_jarr (xs : JArr) : (JVal.jarr xs).isStr = false := rfl

@[simp] theorem JVal.isStr_jobj (fs : JObj) : (JVal.jobj fs).isStr = false := rfl

/-! ### Helper lemmas: `Nat.repr` is injective, temp paths are distinct -/

theorem toDigitsCore_eq_digitsRepr (f : Nat) :
    ∀ n ds, n < f → Nat.toDigitsCore 10 f n ds = (digitsRepr n).map Nat.digitChar ++ ds := by
  induction f with
  | zero => intro n ds h; omega
  | succ f ih =>
    intro n ds h
    rw [Nat.toDigitsCore]
    by_cases h10 : n / 10 = 0
    · have hn10 : n < 10 := by omega
      simp only [h10, if_pos]
      by_cases hn : n = 0
      · subst hn; simp [digitsRepr]
      · rw [digitsRepr, if_neg hn, Nat.digits_of_lt 10 n hn hn10,
          Nat.mod_eq_of_lt hn10]
        rfl
    · have hn : n ≠ 0 := by omega
      have hlt : n / 10 < f := by
        have h1 : n / 10 < n := Nat.div_lt_self (by omega) (by omega)
        omega
      simp only [h10, if_neg]
      rw [ih (n / 10) _ hlt]
      simp only [digitsRepr, h10, hn, if_false, if_neg,
        Nat.digits_def' (by norm_num : (1:Nat) < 10) (by omega : 0 < n)]
      simp [List.append_assoc]

theorem repr_eq_digitsRepr (n : Nat) :
    Nat.repr n = ((digitsRepr n).map Nat.digitChar).asString := by
  rw [Nat.repr, Nat.toDigits, toDigitsCore_eq_digitsRepr (n + 1) n [] (Nat.lt_succ_self n),
    List.append_nil]

theorem charToDigit_digitChar {a : Nat} (h : a < 10) :
    charToDigit (Nat.digitChar a) = a := by
  interval_cases a <;> decide

theorem map_digitChar_inj :
    ∀ {l1 l2 : List Nat}, (∀ x ∈ l1, x < 10) → (∀ x ∈ l2, x < 10) →
      l1.map Nat.digitChar = l2.map Nat.digitChar → l1 = l2 := by
  intro l1
  induction l1 with
  | nil => intro l2 _ _ h; cases l2 with
    | nil => rfl
    | cons b t2 => simp at h
  | cons a t ih =>
    intro l2 h1 h2 h
    cases l2 with
    | nil => simp at h
    | cons b t2 =>
      simp only [List.map_cons, List.cons.injEq] at h
      have hab : a = b := by
        have := congrArg charToDigit h.1
        rwa [charToDigit_digitChar (h1 a (by simp)),
          charToDigit_digitChar (h2 b (by simp))] at this
      have ht : t = t2 :=
        ih (fun x hx => h1 x (by simp [hx])) (fun x hx => h2 x (by simp [hx])) h.2
      rw [hab, ht]

theorem digitsRepr_lt {n x : Nat} (hx : x ∈ digitsRepr n) : x < 10 := by
  rw [digitsRepr] at hx
  by_cases hn : n = 0
  · simp [hn] at hx; omega
  · rw [if_neg hn, List.mem_reverse] at hx
    exact Nat.digits_lt_base (by norm_num) hx

theorem digitsRepr_inj {n m : Nat} (h : digitsRepr n = digitsRepr m) : n = m := by
  rw [digitsRepr, digitsRepr] at h
  by_cases hn : n = 0 <;> by_cases hm : m = 0
  · omega
  · rw [if_pos hn, if_neg hm] at h
    have h2 : Nat.digits 10 m = [0] := by simpa using (congrArg List.reverse h).symm
    have h3 := Nat.ofDigits_digits 10 m
    rw [h2] at h3
    simp [Nat.ofDigits] at h3
    omega
  · rw [if_neg hn, if_pos hm] at h
    have h2 : Nat.digits 10 n = [0] := by simpa using congrArg List.reverse h
    have h3 := Nat.ofDigits_digits 10 n
    rw [h2] at h3
    simp [Nat.ofDigits] at h3
    omega
  · rw [if_neg hn, if_neg hm] at h
    exact Nat.digits_inj_iff.mp (List.reverse_injective h)

theorem natRepr_inj {n m : Nat} (h : Nat.repr n = Nat.repr m) : n = m := by
  rw [repr_eq_digitsRepr, repr_eq_digitsRepr] at h
  exact digitsRepr_inj
    (map_digitChar_inj (fun x hx => digitsRepr_lt hx) (fun x hx => digitsRepr_lt hx)
      (congrArg String.data h))

theorem videoPathOf_inj {n m : Nat} (h : videoPathOf n = videoPathOf m) : n = m := by
  have hd := congrArg String.data h
  simp only [videoPathOf, pathJoin, tmpDir, String.data_append, List.append_assoc,
    List.append_right_inj] at hd
  have h2 : (Nat.repr n).data = (Nat.repr m).data :=
    (List.append_left_inj _).mp hd
  exact natRepr_inj (String.ext h2)

theorem audioPath_inj {n m : Nat} (h : audioPath n = audioPath m) : n = m := by
  have hd := congrArg String.data h
  simp only [audioPath, pathJoin, tmpDir, String.data_append, List.append_assoc,
    List.append_right_inj] at hd
  have h2 : (Nat.repr n).data = (Nat.repr m).data :=
    (List.append_left_inj _).mp hd
  exact natRepr_inj (String.ext h2)

theorem videoPathOf_ne_audioPath (n m : Nat) : videoPathOf n ≠ audioPath m := by
  intro h
  have hd := congrArg (fun s => s.data.getLast?) h
  simp only [videoPathOf, audioPath, pathJoin, tmpDir, String.data_append,
    List.append_assoc, List.getLast?_append] at hd
  simp at hd

/-! ### Claim theorems -/

/-- C1: whenever the availability probe, the extraction, the audio read and
the ASR call succeed (and the ASR normalization yields the string `t`) but the
summarization call fails, `processVideoFile` still returns a successful
outcome whose transcription is `t` and whose summary is the diagnostic string
`Error generating summary: <cause>`; the summarization failure is never
propagated as an error. -/
theorem c1_summarization_failure_degrades
    (vp : String) (bin : Option String) (env : Env) (t : String)
    (h1 : env.checkOk = true) (h2 : env.extractOk = true) (h3 : env.readOk = true)
    (h4 : env.fetchOk = true) (h5 : env.resOk = true)
    (ht : normalizeAsr env.raw env.parsed = .jstr t)
    (h6 : env.sumOk = false) :
    (processVideoFile vp bin env).2 =
      Except.ok ⟨t, "Error generating summary: " ++ env.sumErrMsg⟩ := by
  simp [processVideoFile, h1, h2, h3, h4, h5, h6, ht, summaryOf]

/-- C1 witness: a concrete run with a failed summarization call. -/
theorem c1_summarization_failure_degrades_witness :
    (processVideoFile "/tmp/upload_1.mp4" none envC1).2 =
      Except.ok ⟨"hello world", "Error generating summary: boom"⟩ :=
  c1_summarization_failure_degrades "/tmp/upload_1.mp4" none envC1 "hello world"
    rfl rfl rfl rfl rfl rfl rfl

/-- C6: when the availability probe (running `"<ff>" -version` under the
5000 ms timeout) fails, `processVideoFile` aborts with the fatal
`ffmpeg not found or not executable: <ff>` error; its whole event trace is
that single probe, so no artifact is created, read or deleted and no remote
service call is attempted. -/
theorem c6_unavailable_binary_aborts
    (vp : String) (bin : Option String) (env : Env) (h : env.checkOk = false) :
    processVideoFile vp bin env =
      ([.execCheck ("\"" ++ resolveFf bin env.ffmpegStaticBin ++ "\" -version") 5000],
       Except.error
         ("ffmpeg not found or not executable: " ++ resolveFf bin env.ffmpegStaticBin)) ∧
    ((processVideoFile vp bin env).1.all fun e => !e.isRemoteCall) = true ∧
    ((processVideoFile vp bin env).1.all fun e => !e.touchesFs) = true := by
  refine ⟨?_, ?_, ?_⟩ <;>
    simp [processVideoFile, h, checkCmd, Event.isRemoteCall, Event.touchesFs]

/-- C6 witness: a concrete run with an unavailable binary. -/
theorem c6_unavailable_binary_aborts_witness :
    processVideoFile "/tmp/upload_1.mp4" none envC6 =
      ([.execCheck ("\"" ++ resolveFf none envC6.ffmpegStaticBin ++ "\" -version") 5000],
       Except.error
         ("ffmpeg not found or not executable: " ++ resolveFf none envC6.ffmpegStaticBin)) ∧
    ((processVideoFile "/tmp/upload_1.mp4" none envC6).1.all fun e => !e.isRemoteCall) = true ∧
    ((processVideoFile "/tmp/upload_1.mp4" none envC6).1.all fun e => !e.touchesFs) = true :=
  c6_unavailable_binary_aborts "/tmp/upload_1.mp4" none envC6 rfl

/-- C7: for every binary path, input path and output path, the extraction
command contains `-y` (overwrite output), and then `-vn` (disable video),
`-acodec pcm_s16le` (PCM signed 16-bit little-endian), `-ar 16000`
(16000 Hz) and `-ac 1` (mono), each as a blank-delimited argument. -/
theorem c7_extraction_command_arguments (ff vp ap : String) :
    ∃ p m q, ffmpegCmd ff vp ap =
      p ++ " -y " ++ m ++ " -vn -acodec pcm_s16le -ar 16000 -ac 1 " ++ q := by
  refine ⟨"\"" ++ ff ++ "\"", "-i \"" ++ vp ++ "\"", "\"" ++ ap ++ "\"", ?_⟩
  simp only [ffmpegCmd, String.append_assoc]

/-- Sanity anchor: the chunked definition of `ffmpegCmd` renders exactly the
template literal of `processVideo.js` line 47. -/
theorem ffmpegCmd_template :
    ffmpegCmd "F" "V" "A" =
      "\"F\" -y -i \"V\" -vn -acodec pcm_s16le -ar 16000 -ac 1 \"A\"" := rfl

/-- C4: when the ASR call fails — the `fetch` rejects at the transport level
or the response is non-ok — `processVideoFile` throws the fatal
`ASR failed: <cause>` error carrying that failure, the summarization service
is never called, and the audio temp file is deleted (the trace ends with its
`unlink`, and it is absent from the filesystem afterwards) before the error
propagates. -/
theorem c4_asr_failure_is_fatal
    (vp : String) (bin : Option String) (env : Env)
    (h1 : env.checkOk = true) (h2 : env.extractOk = true) (h3 : env.readOk = true)
    (h4 : env.fetchOk = false ∨ env.resOk = false) :
    (processVideoFile vp bin env).2 = Except.error ("ASR failed: " ++ asrFailCause env) ∧
    ((processVideoFile vp bin env).1.all fun e => !e.isChatCall) = true ∧
    (processVideoFile vp bin env).1.getLast? = some (.unlink (audioPath env.now)) ∧
    audioPath env.now ∉ runFs env [] (processVideoFile vp bin env).1 := by
  cases hf : env.fetchOk with
  | false =>
    refine ⟨?_, ?_, ?_, ?_⟩ <;>
      simp [processVideoFile, h1, h2, h3, hf, asrFailCause, Event.isChatCall,
        runFs, applyEvent, List.foldl]
  | true =>
    have hro : env.resOk = false := by
      rcases h4 with h | h
      · rw [h] at hf; cases hf
      · exact h
    refine ⟨?_, ?_, ?_, ?_⟩ <;>
      simp [processVideoFile, h1, h2, h3, hf, hro, asrFailCause, Event.isChatCall,
        runFs, applyEvent, List.foldl]

/-- C4 witness: a concrete run whose ASR fetch rejects. -/
theorem c4_asr_failure_is_fatal_witness :
    (processVideoFile "/tmp/upload_1.mp4" none envC4).2 =
      Except.error ("ASR failed: " ++ asrFailCause envC4) ∧
    ((processVideoFile "/tmp/upload_1.mp4" none envC4).1.all fun e => !e.isChatCall) = true ∧
    (processVideoFile "/tmp/upload_1.mp4" none envC4).1.getLast? =
      some (.unlink (audioPath envC4.now)) ∧
    audioPath envC4.now ∉ runFs envC4 [] (processVideoFile "/tmp/upload_1.mp4" none envC4).1 :=
  c4_asr_failure_is_fatal "/tmp/upload_1.mp4" none envC4 rfl rfl rfl (Or.inl rfl)

/-- C2 (code bug): on an extraction failure whose subprocess left a truncated
output file behind, the request completes its 500 response with the video
temp file deleted but the audio temp file still on disk — the `catch` block
of the extraction stage (`processVideo.js` lines 51-55) rethrows without
unlinking `audioPath`, so not every temp file created during the request is
deleted before the response is sent. -/
theorem c2_stray_audio_survives_request :
    runFs envC2 [] (handler (some uploadA) 7 envC2).1 = [audioPath 5] ∧
    (handler (some uploadA) 7 envC2).2 =
      HResponse.serverError ("Error: ffmpeg failed: codec error") := by
  constructor <;> rfl

/-- C5 (code bug): on an extraction failure `processVideoFile` does throw the
fatal `ffmpeg failed: <stderr>` error carrying the subprocess diagnostic and
performs no remote service call, and the handler deletes the video temp file
before responding — but a truncated audio output file left by the failed
subprocess is NOT released: it remains on disk after the error propagates. -/
theorem c5_extraction_failure_diagnostics_but_stray_audio :
    (processVideoFile (videoPathOf 9) none envC5).2 =
      Except.error ("ffmpeg failed: " ++ envC5.extractStderr) ∧
    ((processVideoFile (videoPathOf 9) none envC5).1.all fun e => !e.isRemoteCall) = true ∧
    videoPathOf 9 ∉ runFs envC5 [] (handler (some uploadB) 9 envC5).1 ∧
    audioPath envC5.now ∈ runFs envC5 [] (handler (some uploadB) 9 envC5).1 := by
  refine ⟨rfl, rfl, by decide, by decide⟩

/-- C3 counterexample: a transport-ok ASR response whose body is the empty
JSON object lacks every transcript field, yet the stage does not fall back to
the empty string: the recorded transcription is the stringified body. -/
theorem c3_counterexample_stringified_body :
    (processVideoFile "/tmp/upload_3.mp4" none envC3).2 =
      Except.ok ⟨"\x7b\x7d", "Error generating summary: down"⟩ ∧
    ("\x7b\x7d" : String) ≠ "" := by
  constructor
  · rfl
  · decide

/-- C3 (amended): on a transport-ok ASR response whose parsed body lacks every
transcript field the stage never raises: it yields the empty string exactly
when the body is empty or parses to a falsy value; a truthy plain-string body
is returned as the transcription itself, as is the raw body text when the
parse throws; any other truthy body falls back to the JSON-stringified body
(not the empty string); and the pipeline proceeds to a successful outcome
whose transcription is that normalized value. -/
theorem c3_missing_field_never_raises
    (vp : String) (bin : Option String) (env : Env) (raw : String) (j : JVal)
    (hj : lacksTranscriptField j = true) :
    (normalizeAsr "" (some j) = .jstr "") ∧
    (raw ≠ "" → j.truthy = false → normalizeAsr raw (some j) = .jstr "") ∧
    (raw ≠ "" → j.truthy = true → j.isStr = true → normalizeAsr raw (some j) = j) ∧
    (raw ≠ "" → j.truthy = true → j.isStr = false →
      normalizeAsr raw (some j) = .jstr (JVal.stringify j)) ∧
    (raw ≠ "" → normalizeAsr raw none = .jstr raw) ∧
    (env.checkOk = true → env.extractOk = true → env.readOk = true →
      env.fetchOk = true → env.resOk = true → env.parsed = some j →
      ∃ t, normalizeAsr env.raw env.parsed = .jstr t ∧
        (processVideoFile vp bin env).2 = Except.ok ⟨t, summaryOf env⟩) := by
  simp only [lacksTranscriptField, Bool.and_eq_true, Bool.not_eq_true',
    Bool.not_eq_true] at hj
  obtain ⟨⟨htext, htrans⟩, harr⟩ := hj
  have hstr : ∀ r : String, r ≠ "" →
      ∃ s, normalizeAsr r (some j) = .jstr s ∧
        (j.truthy = false → s = "") ∧
        (j.truthy = true → j.isStr = true → JVal.jstr s = j) ∧
        (j.truthy = true → j.isStr = false → s = JVal.stringify j) := by
    intro r hr
    cases j with
    | jnull =>
        refine ⟨"", by simp [normalizeAsr, hr], fun _ => rfl, fun h _ => ?_,
          fun h _ => ?_⟩ <;> simp at h
    | jbool b =>
        cases b with
        | false =>
            refine ⟨"", by simp [normalizeAsr, hr], fun _ => rfl, fun h _ => ?_,
              fun h _ => ?_⟩ <;> simp at h
        | true =>
            refine ⟨JVal.stringify (.jbool true), by simp [normalizeAsr, hr],
              fun h => ?_, fun _ h => ?_, fun _ _ => rfl⟩ <;> simp at h
    | jnum n =>
        by_cases hn : n = 0
        · subst hn
          refine ⟨"", by simp [normalizeAsr, hr], fun _ => rfl, fun h _ => ?_,
            fun h _ => ?_⟩ <;> simp at h
        · refine ⟨JVal.stringify (.jnum n), by simp [normalizeAsr, hr, hn],
            fun h => ?_, fun _ h => ?_, fun _ _ => rfl⟩
          · simp [hn] at h
          · simp at h
    | jstr s =>
        by_cases hs : s = ""
        · subst hs
          refine ⟨"", by simp [normalizeAsr, hr], fun _ => rfl, fun h _ => ?_,
            fun h _ => ?_⟩ <;> simp at h
        · refine ⟨s, by simp [normalizeAsr, hr, hs], fun h => ?_, fun _ _ => rfl,
            fun _ h => ?_⟩
          · simp [hs] at h
          · simp at h
    | jarr xs =>
        have h2 : (JVal.get (JVal.index0 (.jarr xs)) "text").truthy = false := by
          simpa using harr
        refine ⟨JVal.stringify (.jarr xs), by simp [normalizeAsr, hr, h2],
          fun h => ?_, fun _ h => ?_, fun _ _ => rfl⟩ <;> simp at h
    | jobj fs =>
        refine ⟨JVal.stringify (.jobj fs), by simp [normalizeAsr, hr, htext, htrans],
          fun h => ?_, fun _ h => ?_, fun _ _ => rfl⟩ <;> simp at h
  refine ⟨by simp [normalizeAsr], ?_, ?_, ?_, ?_, ?_⟩
  · intro hr htr
    obtain ⟨s, hs, h0, _, _⟩ := hstr raw hr
    rw [hs, h0 htr]
  · intro hr htr hsj
    obtain ⟨s, hs, _, h1, _⟩ := hstr raw hr
    rw [hs]
    exact h1 htr hsj
  · intro hr htr hns
    obtain ⟨s, hs, _, _, h2⟩ := hstr raw hr
    rw [hs, h2 htr hns]
  · intro hr
    simp [normalizeAsr, hr]
  · intro e1 e2 e3 e4 e5 ep
    by_cases hr : env.raw = ""
    · refine ⟨"", by simp [normalizeAsr, hr], ?_⟩
      simp [processVideoFile, e1, e2, e3, e4, e5, normalizeAsr, hr]
    · obtain ⟨s, hs, _, _, _⟩ := hstr env.raw hr
      rw [← ep] at hs
      exact ⟨s, hs, by simp [processVideoFile, e1, e2, e3, e4, e5, hs]⟩

/-- C3 amended witness: concrete runs exercising the empty-object body (the
stringify fallback and the successful pipeline outcome), a plain-string body,
and an unparseable body kept as raw text. -/
theorem c3_missing_field_never_raises_witness :
    lacksTranscriptField (JVal.jobj JObj.nil) = true ∧
    normalizeAsr "\x7b\x7d" (some (JVal.jobj JObj.nil)) =
      .jstr (JVal.stringify (JVal.jobj JObj.nil)) ∧
    normalizeAsr "\"hi\"" (some (JVal.jstr "hi")) = JVal.jstr "hi" ∧
    normalizeAsr "plain text" none = .jstr "plain text" ∧
    (∃ t, normalizeAsr envC3.raw envC3.parsed = .jstr t ∧
      (processVideoFile "/tmp/upload_3.mp4" none envC3).2 =
        Except.ok ⟨t, summaryOf envC3⟩) := by
  have h := c3_missing_field_never_raises "/tmp/upload_3.mp4" none envC3
    "\x7b\x7d" (JVal.jobj JObj.nil) rfl
  have hs := c3_missing_field_never_raises "/tmp/upload_3.mp4" none envC3
    "\"hi\"" (JVal.jstr "hi") rfl
  have hp := c3_missing_field_never_raises "/tmp/upload_3.mp4" none envC3
    "plain text" (JVal.jobj JObj.nil) rfl
  refine ⟨rfl, h.2.2.2.1 (by decide) rfl rfl, hs.2.2.1 (by decide) (by decide) rfl,
    hp.2.2.2.2.1 (by decide), h.2.2.2.2.2 rfl rfl rfl rfl rfl rfl⟩

/-- C8 counterexample: two distinct concurrent requests that observe the same
`Date.now()` millisecond are assigned identical video and audio temp paths —
the paths depend only on the millisecond timestamp, so same-millisecond
requests collide. -/
theorem c8_counterexample_same_ms_collision :
    reqA ≠ reqB ∧
    videoPathOf reqA.arrivalMs = videoPathOf reqB.arrivalMs ∧
    audioPath reqA.arrivalMs = audioPath reqB.arrivalMs := by
  refine ⟨by decide, rfl, rfl⟩

/-- C8 (amended): the temp paths are derived from the `Date.now()` millisecond
timestamp, so two requests observing distinct milliseconds get distinct video
paths and distinct audio paths (and a video path never equals an audio path);
but the source is only millisecond-granular, not collision-free under
concurrency — requests in the same millisecond collide. -/
theorem c8_distinct_ms_distinct_paths (r1 r2 : RequestCtx)
    (h : r1.arrivalMs ≠ r2.arrivalMs) :
    videoPathOf r1.arrivalMs ≠ videoPathOf r2.arrivalMs ∧
    audioPath r1.arrivalMs ≠ audioPath r2.arrivalMs ∧
    videoPathOf r1.arrivalMs ≠ audioPath r2.arrivalMs :=
  ⟨fun he => h (videoPathOf_inj he), fun he => h (audioPath_inj he),
    videoPathOf_ne_audioPath _ _⟩

/-- C8 amended witness: two requests one millisecond apart. -/
theorem c8_distinct_ms_distinct_paths_witness :
    videoPathOf 3 ≠ videoPathOf 4 ∧
    audioPath 3 ≠ audioPath 4 ∧
    videoPathOf 3 ≠ audioPath 4 :=
  c8_distinct_ms_distinct_paths ⟨1, 3⟩ ⟨2, 4⟩ (by decide)

theorem getLast?_cons_concat {α : Type} (a b : α) (l : List α) :
    (a :: (l ++ [b])).getLast? = some b := by
  rw [← List.cons_append, List.getLast?_concat]

/-- C9: for every outcome, the pipeline itself never deletes, overwrites or
creates the file at its `videoPath` argument — every filesystem-mutating
event in its trace targets only the audio temp path — and the deletion of the
video temp file is performed by the HTTP handler, whose trace always ends
with that `unlink` just before the response. -/
theorem c9_pipeline_preserves_video_file (bin : Option String) (env : Env)
    (hnow : Nat) (f : Upload) :
    ((processVideoFile (videoPathOf hnow) bin env).1.all
        fun e => !(e.touchesPath (videoPathOf hnow))) = true ∧
    (handler (some f) hnow env).1.getLast? = some (.unlink (videoPathOf hnow)) := by
  have hne : (audioPath env.now == videoPathOf hnow) = false :=
    beq_eq_false_iff_ne.mpr fun he => videoPathOf_ne_audioPath hnow env.now he.symm
  constructor
  · cases hc : env.checkOk <;> cases he : env.extractOk <;> cases hrd : env.readOk <;>
      cases hfk : env.fetchOk <;> cases hro : env.resOk <;>
      cases hn : normalizeAsr env.raw env.parsed <;>
      simp [processVideoFile, hc, he, hrd, hfk, hro, hn, Event.touchesPath, hne]
  · rcases hres : processVideoFile (videoPathOf hnow) none env with ⟨tr, res⟩
    cases res <;> simp [handler, hres, getLast?_cons_concat]

/-- C10: two uploads with identical bytes but different caller-supplied
original filenames are processed identically — the handler never reads the
original filename, and the saved temp path is always
`<tmpDir>/upload_<Date.now()>.mp4`, so the original filename can influence
neither the subprocess command line nor the response. -/
theorem c10_original_filename_ignored (buf : List Nat) (n1 n2 : String)
    (hnow : Nat) (env : Env) (_h : n1 ≠ n2) :
    handler (some ⟨buf, n1⟩) hnow env = handler (some ⟨buf, n2⟩) hnow env ∧
    (handler (some ⟨buf, n1⟩) hnow env).1.head? =
      some (.writeFile (pathJoin tmpDir ("upload_" ++ Nat.repr hnow ++ ".mp4"))) := by
  constructor
  · rfl
  · rcases hres : processVideoFile (videoPathOf hnow) none env with ⟨tr, res⟩
    cases res <;> (simp only [handler, hres]; simp [videoPathOf])

/-- C10 witness: same bytes, two different original filenames. -/
theorem c10_original_filename_ignored_witness :
    handler (some ⟨[7], "a.mp4"⟩) 2 envOk = handler (some ⟨[7], "b.mp4"⟩) 2 envOk ∧
    (handler (some ⟨[7], "a.mp4"⟩) 2 envOk).1.head? =
      some (.writeFile (pathJoin tmpDir ("upload_" ++ Nat.repr 2 ++ ".mp4"))) :=
  c10_original_filename_ignored [7] "a.mp4" "b.mp4" 2 envOk (by decide)
